import Mathlib

/-!
Shallow embedding of `UQpy/reliability/taylor_series/FORM.py` (class `FORM`,
methods `__init__` and `run`), together with theorems settling the frozen
claims about the FORM solver.

Modelling conventions:
* Machine floats are modelled by exact reals `ℝ`; `np.linalg.norm` of a vector
  is the Euclidean norm, and of a scalar the absolute value.
* A numpy array of fixed shape is modelled by a `List` of the corresponding
  length; an indexed read/write is bounds-checked and raises `IndexError`
  out of bounds, exactly as numpy integer indexing does
  (`npGet` / `npSet` below return `Except`).
* Exceptions are modelled by `Except PyErr`: a `.error` result means the
  Python call raises and the instance keeps its previous attribute values.
* The external collaborators that are not part of the FORM source are
  parameters of the model (`FormParams`): the probabilistic transform
  (`Correlate`/`Nataf.run`, used both for mapping a U-point to an X-point and
  for mapping `seed_x` into U-space), the finite-difference gradient
  `TaylorSeries.derivatives` (which wraps the user's model evaluator), and
  `scipy.stats.norm.cdf` (`Phi`).
-/

/-- Python exception kinds that the modelled code can raise.  `loopFuel` is a
model artifact of the fuel-based loop encoding; the fuel `n_iter + 2` always
suffices (each pass of the `while` either converges or increments `k`, and the
pass at `k = n_iter` raises `indexError`), so it is never returned. -/
inductive PyErr where
  | valueError : PyErr
  | indexError : PyErr
  | loopFuel : PyErr
deriving DecidableEq, Repr

/-- Bounds-checked numpy read `l[i]`. -/
def npGet {α : Type} (l : List α) (i : ℕ) : Except PyErr α :=
  match l[i]? with
  | some a => Except.ok a
  | none => Except.error PyErr.indexError

/-- Bounds-checked numpy write `l[i] = a`. -/
def npSet {α : Type} (l : List α) (i : ℕ) (a : α) : Except PyErr (List α) :=
  if i < l.length then Except.ok (l.set i a) else Except.error PyErr.indexError

/-- Euclidean norm, the default `np.linalg.norm` on a 1-d array. -/
noncomputable def euclideanNorm {n : ℕ} (v : Fin n → ℝ) : ℝ :=
  Real.sqrt (∑ i, v i ^ 2)

/-- The configuration of a `FORM` instance together with its external
collaborators.  `nIter` is `self.n_iter` (`iterations_number`, a positive
integer); `transform` maps a U-space point to the X-space point
(`Correlate` + `Nataf.run`, lines 144-153); `toU` maps a `seed_x` into
U-space (lines 115-117); `deriv` is `TaylorSeries.derivatives`
(point_u, point_x) ↦ (dg_u, qoi); `Phi` is `stats.norm.cdf`. -/
structure FormParams (n : ℕ) where
  nIter : ℕ
  transform : (Fin n → ℝ) → (Fin n → ℝ)
  toU : (Fin n → ℝ) → (Fin n → ℝ)
  deriv : (Fin n → ℝ) → (Fin n → ℝ) → ((Fin n → ℝ) × ℝ)
  Phi : ℝ → ℝ
  tol1 : Option ℝ
  tol2 : Option ℝ
  tol3 : Option ℝ

/-- The local state of the `while` loop of `FORM.run` (lines 123-258):
the iteration counter `k`, the `converged` flag, the numpy arrays `beta`
(shape `n_iter+1`), `u` (shape `(n_iter+1, n)`) and `dg_u_record`
(shape `(n_iter+1, n)`), the attribute `self.x`, and the local history lists.
`uRecord` holds the snapshot of the `u` array appended at each pass. -/
structure LoopState (n : ℕ) where
  k : ℕ
  converged : Bool
  beta : List ℝ
  u : List (Fin n → ℝ)
  dgRec : List (Fin n → ℝ)
  x : Fin n → ℝ
  uRecord : List (List (Fin n → ℝ))
  xRecord : List (Fin n → ℝ)
  gRecord : List ℝ
  alphaRecord : List (Fin n → ℝ)
  errorRecord : List (List ℝ)

/-- The result/history attributes of a `FORM` instance.  A Python attribute
initialized to `None` in `__init__` and later holding a list is modelled by
`Option (List _)`; `call = false` models `self.call is None`. -/
structure FormState (n : ℕ) where
  beta_form : Option (List ℝ)
  DesignPoint_U : Option (List (Fin n → ℝ))
  DesignPoint_X : Option (List (Fin n → ℝ))
  failure_probability : Option (List ℝ)
  form_iterations : Option (List ℕ)
  beta_record : Option (List (List ℝ))
  error_record : Option (List (List ℝ))
  u_record : Option (List (List (List (Fin n → ℝ))))
  x_record : Option (List (List (Fin n → ℝ)))
  g_record : Option (List (List ℝ))
  dg_u_record : Option (List (List (Fin n → ℝ)))
  alpha_record : Option (List (List (Fin n → ℝ)))
  call : Bool

/-- The state of a freshly constructed instance (lines 70-94: every result
attribute is `None`, `self.call` is `None`). -/
def initState (n : ℕ) : FormState n :=
  { beta_form := none, DesignPoint_U := none, DesignPoint_X := none,
    failure_probability := none, form_iterations := none, beta_record := none,
    error_record := none, u_record := none, x_record := none, g_record := none,
    dg_u_record := none, alpha_record := none, call := false }

/-- Lines 184-253 of `FORM.run`: the per-iteration convergence decision.
Takes the configured tolerances, the values `u[k]`, `u[k+1]`, `beta[k]`,
`beta[k+1]`, `dg_u_record[k]`, `dg_u_record[k+1]`, the counter `k` and the
local `error_record`; returns the `converged` flag, the updated counter
(`k` on convergence, `k + 1` otherwise) and the updated `error_record`.
Each branch appends the errors it computes; exactly one of the eight branches
applies.  Note that the branch for `tol1`/`tol2` configured (source line 232)
compares `error2` against `tol1`, exactly as the source does. -/
noncomputable def convergenceStep {n : ℕ} (t1 t2 t3 : Option ℝ)
    (uk uk1 : Fin n → ℝ) (bk bk1 : ℝ) (dgk dgk1 : Fin n → ℝ)
    (k : ℕ) (er : List (List ℝ)) : Bool × ℕ × List (List ℝ) :=
  let e1 := euclideanNorm (fun i => uk1 i - uk i)
  let e2 := |bk1 - bk|
  let e3 := euclideanNorm (fun i => dgk1 i - dgk i)
  match t1, t2, t3 with
  | some a, some b, some c =>
      if e1 ≤ a ∧ e2 ≤ b ∧ e3 < c then (true, k, er ++ [[e1, e2, e3]])
      else (false, k + 1, er ++ [[e1, e2, e3]])
  | none, none, none =>
      if e1 ≤ 1e-3 ∨ e2 ≤ 1e-3 ∨ e3 < 1e-3 then (true, k, er ++ [[e1, e2, e3]])
      else (false, k + 1, er ++ [[e1, e2, e3]])
  | some a, none, none =>
      if e1 ≤ a then (true, k, er ++ [[e1]]) else (false, k + 1, er ++ [[e1]])
  | none, some b, none =>
      if e2 ≤ b then (true, k, er ++ [[e2]]) else (false, k + 1, er ++ [[e2]])
  | none, none, some c =>
      if e3 < c then (true, k, er ++ [[e3]]) else (false, k + 1, er ++ [[e3]])
  | some a, some b, none =>
      if e1 ≤ a ∧ e2 ≤ a then (true, k, er ++ [[e1, e2]])
      else (false, k + 1, er ++ [[e1, e2]])
  | some a, none, some c =>
      if e1 ≤ a ∧ e3 < c then (true, k, er ++ [[e1, e3]])
      else (false, k + 1, er ++ [[e1, e3]])
  | none, some b, some c =>
      if e2 ≤ b ∧ e3 < c then (true, k, er ++ [[e2, e3]])
      else (false, k + 1, er ++ [[e2, e3]])

/-- One pass of the `while` loop body of `FORM.run` (lines 138-255), in the
source order: compute `x` (from `seed_x` at `k = 0`, otherwise through the
transform), append to `u_record`/`x_record`, call `derivatives`, append to
`g_record`, write `dg_u_record[k+1]` (bounds-checked), compute `alpha`,
append to `alpha_record`, write `beta[k]`, `beta[k+1]` and `u[k+1]`
(bounds-checked), then run the convergence branch. -/
noncomputable def formIteration {n : ℕ} (P : FormParams n)
    (seedX : Option (Fin n → ℝ)) (seed : Fin n → ℝ) (ls : LoopState n) :
    Except PyErr (LoopState n) := do
  let k := ls.k
  let uk ← npGet ls.u k
  let x : Fin n → ℝ :=
    if k = 0 then
      match seedX with
      | some sx => sx
      | none => P.transform seed
    else P.transform uk
  let uRecord' := ls.uRecord ++ [ls.u]
  let xRecord' := ls.xRecord ++ [x]
  let dq := P.deriv uk x
  let gRecord' := ls.gRecord ++ [dq.2]
  let dgRec' ← npSet ls.dgRec (k + 1) dq.1
  let normGrad := euclideanNorm dq.1
  let alpha : Fin n → ℝ := fun i => dq.1 i / normGrad
  let alphaRecord' := ls.alphaRecord ++ [alpha]
  let bk : ℝ := -(∑ i, uk i * alpha i)
  let beta' ← npSet ls.beta k bk
  let bk1 : ℝ := bk + dq.2 / normGrad
  let beta'' ← npSet beta' (k + 1) bk1
  let uk1 : Fin n → ℝ := fun i => -bk1 * alpha i
  let u' ← npSet ls.u (k + 1) uk1
  let dgk ← npGet dgRec' k
  let cs := convergenceStep P.tol1 P.tol2 P.tol3 uk uk1 bk bk1 dgk dq.1 k ls.errorRecord
  Except.ok
    { k := cs.2.1, converged := cs.1, beta := beta'', u := u', dgRec := dgRec',
      x := x, uRecord := uRecord', xRecord := xRecord', gRecord := gRecord',
      alphaRecord := alphaRecord', errorRecord := cs.2.2 }

/-- The `while not converged` loop of `FORM.run` (lines 137-258) with an
explicit fuel.  After each pass the source breaks when `converged` is true or
`k > n_iter` (line 257). -/
noncomputable def runLoop {n : ℕ} (P : FormParams n)
    (seedX : Option (Fin n → ℝ)) (seed : Fin n → ℝ) :
    ℕ → LoopState n → Except PyErr (LoopState n)
  | 0, _ => Except.error PyErr.loopFuel
  | fuel + 1, ls =>
      if ls.converged then Except.ok ls
      else do
        let ls' ← formIteration P seedX seed ls
        if ls'.converged || decide (ls'.k > P.nIter) then Except.ok ls'
        else runLoop P seedX seed fuel ls'

/-- Lines 123-135 of `FORM.run`: fresh local records, `converged = False`,
`k = 0`, `beta = zeros(n_iter+1)`, `u = zeros((n_iter+1, n))` with
`u[0,:] = seed`, `g_record = [0.0]`, `dg_u_record = zeros((n_iter+1, n))`. -/
def initLoopState {n : ℕ} (P : FormParams n) (seed : Fin n → ℝ) : LoopState n :=
  { k := 0, converged := false,
    beta := List.replicate (P.nIter + 1) 0,
    u := (List.replicate (P.nIter + 1) (fun _ => (0 : ℝ))).set 0 seed,
    dgRec := List.replicate (P.nIter + 1) (fun _ => (0 : ℝ)),
    x := fun _ => 0,
    uRecord := [], xRecord := [], gRecord := [0], alphaRecord := [],
    errorRecord := [] }

/-- Lines 260-296 of `FORM.run`: store the results on the instance.  When
`k > n_iter` (lines 260-268) the history attributes are overwritten and
neither `beta_form`, `failure_probability` nor `form_iterations` is touched.
Otherwise the first call (`self.call is None`) stores singleton lists and any
later call appends one entry to each list.  The source would raise a
`TypeError` if `call` were true while an attribute still held `None`; such
states are unreachable, and the model reads those attributes with
`Option.getD []`. -/
noncomputable def finalize {n : ℕ} (P : FormParams n) (st : FormState n)
    (ls : LoopState n) : FormState n :=
  if ls.k > P.nIter then
    { st with
      error_record := some ls.errorRecord,
      u_record := some [ls.uRecord],
      x_record := some [ls.xRecord],
      g_record := some [ls.gRecord],
      dg_u_record := some [ls.dgRec.take ls.k],
      alpha_record := some [ls.alphaRecord] }
  else
    let bk := ls.beta.getD ls.k 0
    let uk := ls.u.getD ls.k (fun _ => 0)
    if st.call = false then
      { beta_record := some [ls.beta.take ls.k],
        error_record := some ls.errorRecord,
        beta_form := some [bk],
        DesignPoint_U := some [uk],
        DesignPoint_X := some [ls.x],
        failure_probability := some [P.Phi (-bk)],
        form_iterations := some [ls.k],
        u_record := some [ls.uRecord.take ls.k],
        x_record := some [ls.xRecord.take ls.k],
        g_record := some [ls.gRecord],
        dg_u_record := some [ls.dgRec.take ls.k],
        alpha_record := some [ls.alphaRecord],
        call := true }
    else
      { beta_record := some (st.beta_record.getD [] ++ [ls.beta.take ls.k]),
        beta_form := some (st.beta_form.getD [] ++ [bk]),
        error_record := some (st.error_record.getD [] ++ ls.errorRecord),
        DesignPoint_U := some (st.DesignPoint_U.getD [] ++ [uk]),
        DesignPoint_X := some (st.DesignPoint_X.getD [] ++ [ls.x]),
        failure_probability := some (st.failure_probability.getD [] ++ [P.Phi (-bk)]),
        form_iterations := some (st.form_iterations.getD [] ++ [ls.k]),
        u_record := some (st.u_record.getD [] ++ [ls.uRecord.take ls.k]),
        x_record := some (st.x_record.getD [] ++ [ls.xRecord.take ls.k]),
        g_record := some (st.g_record.getD [] ++ [ls.gRecord]),
        dg_u_record := some (st.dg_u_record.getD [] ++ [ls.dgRec.take ls.k]),
        alpha_record := some (st.alpha_record.getD [] ++ [ls.alphaRecord]),
        call := true }

/-- Lines 112-121 of `FORM.run`: seed selection.  Providing both seeds raises
`ValueError` before anything else (no model evaluation, no attribute
mutation). -/
noncomputable def seedSelect {n : ℕ} (P : FormParams n)
    (seedX seedU : Option (Fin n → ℝ)) : Except PyErr (Fin n → ℝ) :=
  match seedU, seedX with
  | none, none => Except.ok (fun _ => 0)
  | none, some sx => Except.ok (P.toU sx)
  | some su, none => Except.ok su
  | some _, some _ => Except.error PyErr.valueError

/-- Method `FORM.run(seed_x, seed_u)` (lines 103-296): select the seed,
run the loop, store the results. -/
noncomputable def runFORM {n : ℕ} (P : FormParams n)
    (seedX seedU : Option (Fin n → ℝ)) (st : FormState n) :
    Except PyErr (FormState n) := do
  let seed ← seedSelect P seedX seedU
  let ls ← runLoop P seedX seed (P.nIter + 2) (initLoopState P seed)
  Except.ok (finalize P st ls)

/-- Lines 96-101 of `FORM.__init__`: after initializing the attributes, run
with `seed_u` if provided (ignoring `seed_x`), else with `seed_x` if provided,
else do not run. -/
noncomputable def initFORM {n : ℕ} (P : FormParams n)
    (seedX seedU : Option (Fin n → ℝ)) : Except PyErr (FormState n) :=
  match seedU with
  | some su => runFORM P none (some su) (initState n)
  | none =>
      match seedX with
      | some sx => runFORM P (some sx) none (initState n)
      | none => Except.ok (initState n)

/-- Length of an optional history list (`None` counts as empty). -/
def olen {α : Type} (o : Option (List α)) : ℕ := (o.getD []).length

/-- States reachable by the class: while `self.call is None`, every result
attribute still holds `None`. -/
def Wf {n : ℕ} (st : FormState n) : Prop :=
  st.call = false →
    st.beta_form = none ∧ st.DesignPoint_U = none ∧ st.DesignPoint_X = none ∧
    st.failure_probability = none ∧ st.form_iterations = none ∧
    st.u_record = none ∧ st.x_record = none ∧ st.g_record = none ∧
    st.dg_u_record = none ∧ st.alpha_record = none

/-- The pair `failure_probability` / `beta_form` invariant: either both are
still `None`, or `failure_probability` is the image of `beta_form` under
`x ↦ Φ(−x)`. -/
def PhiInv {n : ℕ} (P : FormParams n) (st : FormState n) : Prop :=
  match st.beta_form, st.failure_probability with
  | none, none => True
  | some bs, some ps => ps = bs.map fun b => P.Phi (-b)
  | _, _ => False

/-- The shape invariant of the loop arrays (numpy shapes are fixed). -/
def lenOk {n : ℕ} (P : FormParams n) (ls : LoopState n) : Prop :=
  ls.beta.length = P.nIter + 1 ∧ ls.u.length = P.nIter + 1 ∧
    ls.dgRec.length = P.nIter + 1

theorem exbind_ok {α β : Type} (a : α) (f : α → Except PyErr β) :
    (Except.ok a >>= f) = f a := rfl

theorem exbind_err {α β : Type} (e : PyErr) (f : α → Except PyErr β) :
    ((Except.error e : Except PyErr α) >>= f) = Except.error e := rfl

theorem npGet_eq {α : Type} (l : List α) (i : ℕ) (d : α) (h : i < l.length) :
    npGet l i = Except.ok (l.getD i d) := by
  simp [npGet, List.getElem?_eq_getElem h, List.getD_eq_getElem?_getD]

theorem npGet_err {α : Type} (l : List α) (i : ℕ) (h : ¬ i < l.length) :
    npGet l i = Except.error PyErr.indexError := by
  have h' : l.length ≤ i := by omega
  simp [npGet, List.getElem?_eq_none h']

theorem npSet_eq {α : Type} (l : List α) (i : ℕ) (a : α) (h : i < l.length) :
    npSet l i a = Except.ok (l.set i a) := by
  simp [npSet, h]

theorem npSet_err {α : Type} (l : List α) (i : ℕ) (a : α) (h : ¬ i < l.length) :
    npSet l i a = Except.error PyErr.indexError := by
  simp [npSet, h]

theorem getD_set_self {α : Type} (l : List α) (i : ℕ) (a d : α)
    (h : i < l.length) : (l.set i a).getD i d = a := by
  simp [List.getD_eq_getElem?_getD, List.getElem?_set_self h]

theorem getD_set_ne {α : Type} (l : List α) (i j : ℕ) (a d : α) (h : i ≠ j) :
    (l.set i a).getD j d = l.getD j d := by
  simp [List.getD_eq_getElem?_getD, List.getElem?_set, h]

theorem euclideanNorm_single (c : ℝ) :
    euclideanNorm (fun _ : Fin 1 => c) = |c| := by
  simp [euclideanNorm, Fin.sum_univ_one, Real.sqrt_sq_eq_abs]

theorem euclideanNorm_nonneg {n : ℕ} (v : Fin n → ℝ) : 0 ≤ euclideanNorm v :=
  Real.sqrt_nonneg _

/-- The point `u[k, :]` read by the loop body. -/
def ukOf {n : ℕ} (ls : LoopState n) : Fin n → ℝ :=
  ls.u.getD ls.k (fun _ => 0)

/-- The X-space point of the current pass (lines 140-153). -/
noncomputable def xOf {n : ℕ} (P : FormParams n) (seedX : Option (Fin n → ℝ))
    (seed : Fin n → ℝ) (ls : LoopState n) : Fin n → ℝ :=
  if ls.k = 0 then
    match seedX with
    | some sx => sx
    | none => P.transform seed
  else P.transform (ukOf ls)

/-- The gradient `dg_u` returned by `derivatives` in the current pass. -/
noncomputable def dgOf {n : ℕ} (P : FormParams n) (seedX : Option (Fin n → ℝ))
    (seed : Fin n → ℝ) (ls : LoopState n) : Fin n → ℝ :=
  (P.deriv (ukOf ls) (xOf P seedX seed ls)).1

/-- The performance-function value `qoi` of the current pass. -/
noncomputable def qoiOf {n : ℕ} (P : FormParams n) (seedX : Option (Fin n → ℝ))
    (seed : Fin n → ℝ) (ls : LoopState n) : ℝ :=
  (P.deriv (ukOf ls) (xOf P seedX seed ls)).2

/-- The direction cosines of the current pass, exactly as computed on source
line 170: `alpha = dg_u / norm(dg_u)` (no negation). -/
noncomputable def alphaOf {n : ℕ} (P : FormParams n)
    (seedX : Option (Fin n → ℝ)) (seed : Fin n → ℝ) (ls : LoopState n) :
    Fin n → ℝ :=
  fun i => dgOf P seedX seed ls i / euclideanNorm (dgOf P seedX seed ls)

/-- Value `beta[k]` as assigned on source line 177. -/
noncomputable def betaKOf {n : ℕ} (P : FormParams n)
    (seedX : Option (Fin n → ℝ)) (seed : Fin n → ℝ) (ls : LoopState n) : ℝ :=
  -(∑ i, ukOf ls i * alphaOf P seedX seed ls i)

/-- Value `beta[k+1]` as assigned on source line 178. -/
noncomputable def betaK1Of {n : ℕ} (P : FormParams n)
    (seedX : Option (Fin n → ℝ)) (seed : Fin n → ℝ) (ls : LoopState n) : ℝ :=
  betaKOf P seedX seed ls + qoiOf P seedX seed ls / euclideanNorm (dgOf P seedX seed ls)

/-- The value of the loop state after one in-bounds pass of the loop body
(pure counterpart of `formIteration`). -/
noncomputable def bodyResult {n : ℕ} (P : FormParams n)
    (seedX : Option (Fin n → ℝ)) (seed : Fin n → ℝ) (ls : LoopState n) :
    LoopState n :=
  let uk := ukOf ls
  let x := xOf P seedX seed ls
  let dg := dgOf P seedX seed ls
  let alpha := alphaOf P seedX seed ls
  let bk := betaKOf P seedX seed ls
  let bk1 := betaK1Of P seedX seed ls
  let uk1 : Fin n → ℝ := fun i => -bk1 * alpha i
  let dgRec' := ls.dgRec.set (ls.k + 1) dg
  let cs := convergenceStep P.tol1 P.tol2 P.tol3 uk uk1 bk bk1
    (dgRec'.getD ls.k (fun _ => 0)) dg ls.k ls.errorRecord
  { k := cs.2.1, converged := cs.1,
    beta := (ls.beta.set ls.k bk).set (ls.k + 1) bk1,
    u := ls.u.set (ls.k + 1) uk1,
    dgRec := dgRec', x := x,
    uRecord := ls.uRecord ++ [ls.u],
    xRecord := ls.xRecord ++ [x],
    gRecord := ls.gRecord ++ [qoiOf P seedX seed ls],
    alphaRecord := ls.alphaRecord ++ [alpha],
    errorRecord := cs.2.2 }

theorem formIteration_eq {n : ℕ} (P : FormParams n)
    (seedX : Option (Fin n → ℝ)) (seed : Fin n → ℝ) (ls : LoopState n)
    (hb : ls.beta.length = P.nIter + 1) (hu : ls.u.length = P.nIter + 1)
    (hd : ls.dgRec.length = P.nIter + 1) (hk : ls.k < P.nIter) :
    formIteration P seedX seed ls = Except.ok (bodyResult P seedX seed ls) := by
  simp only [formIteration.eq_def]
  rw [npGet_eq ls.u ls.k (fun _ => 0) (by omega)]
  simp only [exbind_ok]
  rw [npSet_eq ls.dgRec (ls.k + 1) _ (by omega)]
  simp only [exbind_ok]
  rw [npSet_eq ls.beta ls.k _ (by omega)]
  simp only [exbind_ok]
  rw [npSet_eq _ (ls.k + 1) _ (by rw [List.length_set]; omega)]
  simp only [exbind_ok]
  rw [npSet_eq ls.u (ls.k + 1) _ (by omega)]
  simp only [exbind_ok]
  rw [npGet_eq _ ls.k (fun _ => 0) (by rw [List.length_set]; omega)]
  simp only [exbind_ok]
  rfl

theorem formIteration_err {n : ℕ} (P : FormParams n)
    (seedX : Option (Fin n → ℝ)) (seed : Fin n → ℝ) (ls : LoopState n)
    (hd : ls.dgRec.length = P.nIter + 1) (hk : P.nIter ≤ ls.k) :
    formIteration P seedX seed ls = Except.error PyErr.indexError := by
  by_cases h : ls.k < ls.u.length
  · simp only [formIteration.eq_def]
    rw [npGet_eq ls.u ls.k (fun _ => 0) h]
    simp only [exbind_ok]
    rw [npSet_err ls.dgRec (ls.k + 1) _ (by omega)]
    rfl
  · simp only [formIteration.eq_def]
    rw [npGet_err ls.u ls.k h]
    rfl

theorem convergenceStep_cases {n : ℕ} (t1 t2 t3 : Option ℝ)
    (uk uk1 : Fin n → ℝ) (bk bk1 : ℝ) (dgk dgk1 : Fin n → ℝ)
    (k : ℕ) (er : List (List ℝ)) :
    ((convergenceStep t1 t2 t3 uk uk1 bk bk1 dgk dgk1 k er).1 = true ∧
      (convergenceStep t1 t2 t3 uk uk1 bk bk1 dgk dgk1 k er).2.1 = k) ∨
    ((convergenceStep t1 t2 t3 uk uk1 bk bk1 dgk dgk1 k er).1 = false ∧
      (convergenceStep t1 t2 t3 uk uk1 bk bk1 dgk dgk1 k er).2.1 = k + 1) := by
  rcases t1 with _ | a <;> rcases t2 with _ | b <;> rcases t3 with _ | c <;>
    (dsimp only [convergenceStep]; split_ifs <;> simp)

theorem bodyResult_lenOk {n : ℕ} (P : FormParams n)
    (seedX : Option (Fin n → ℝ)) (seed : Fin n → ℝ) (ls : LoopState n)
    (h : lenOk P ls) : lenOk P (bodyResult P seedX seed ls) := by
  obtain ⟨h1, h2, h3⟩ := h
  refine ⟨?_, ?_, ?_⟩ <;> simp [bodyResult, List.length_set, h1, h2, h3]

theorem bodyResult_k {n : ℕ} (P : FormParams n)
    (seedX : Option (Fin n → ℝ)) (seed : Fin n → ℝ) (ls : LoopState n) :
    ((bodyResult P seedX seed ls).converged = true ∧
      (bodyResult P seedX seed ls).k = ls.k) ∨
    ((bodyResult P seedX seed ls).converged = false ∧
      (bodyResult P seedX seed ls).k = ls.k + 1) := by
  have := convergenceStep_cases P.tol1 P.tol2 P.tol3 (ukOf ls)
    (fun i => -betaK1Of P seedX seed ls * alphaOf P seedX seed ls i)
    (betaKOf P seedX seed ls) (betaK1Of P seedX seed ls)
    ((ls.dgRec.set (ls.k + 1) (dgOf P seedX seed ls)).getD ls.k (fun _ => 0))
    (dgOf P seedX seed ls) ls.k ls.errorRecord
  simpa [bodyResult] using this

theorem formIteration_ok_inv {n : ℕ} (P : FormParams n)
    (seedX : Option (Fin n → ℝ)) (seed : Fin n → ℝ) (ls ls' : LoopState n)
    (hlen : lenOk P ls)
    (h : formIteration P seedX seed ls = Except.ok ls') :
    ls.k < P.nIter ∧ ls' = bodyResult P seedX seed ls := by
  obtain ⟨h1, h2, h3⟩ := hlen
  by_cases hk : ls.k < P.nIter
  · rw [formIteration_eq P seedX seed ls h1 h2 h3 hk] at h
    exact ⟨hk, (Except.ok.injEq _ _ ▸ h).symm⟩
  · rw [formIteration_err P seedX seed ls h3 (by omega)] at h
    exact absurd h (by simp)

theorem runLoop_ok {n : ℕ} (P : FormParams n)
    (seedX : Option (Fin n → ℝ)) (seed : Fin n → ℝ) (fuel : ℕ) :
    ∀ ls ls' : LoopState n, lenOk P ls → ls.k ≤ P.nIter →
      ls.converged = false →
      runLoop P seedX seed fuel ls = Except.ok ls' →
      ls'.converged = true ∧ ls'.k ≤ P.nIter := by
  induction fuel with
  | zero => intro ls ls' _ _ _ h; exact absurd h (by simp [runLoop])
  | succ fuel ih =>
      intro ls ls' hlen hk hc h
      rw [runLoop, hc] at h
      simp only [Bool.false_eq_true, if_false] at h
      cases hbody : formIteration P seedX seed ls with
      | error e => rw [hbody, exbind_err] at h; exact absurd h (by simp)
      | ok lsm =>
          rw [hbody, exbind_ok] at h
          obtain ⟨hklt, rfl⟩ := formIteration_ok_inv P seedX seed ls lsm hlen hbody
          rcases bodyResult_k P seedX seed ls with ⟨hcv, hkk⟩ | ⟨hcv, hkk⟩
          · rw [hcv] at h
            simp only [Bool.true_or, if_true] at h
            cases h
            exact ⟨hcv, by omega⟩
          · rw [hcv] at h
            have hle : (bodyResult P seedX seed ls).k ≤ P.nIter := by omega
            have hngt : ¬ (bodyResult P seedX seed ls).k > P.nIter := by omega
            have hd : decide ((bodyResult P seedX seed ls).k > P.nIter) = false :=
              decide_eq_false hngt
            simp only [hd, Bool.false_or, Bool.or_false,
              Bool.false_eq_true, if_false] at h
            exact ih _ _ (bodyResult_lenOk P seedX seed ls hlen) hle hcv h

theorem initLoopState_lenOk {n : ℕ} (P : FormParams n) (seed : Fin n → ℝ) :
    lenOk P (initLoopState P seed) := by
  refine ⟨?_, ?_, ?_⟩ <;> simp [initLoopState, List.length_set]

theorem runFORM_ok_elim {n : ℕ} (P : FormParams n)
    (seedX seedU : Option (Fin n → ℝ)) (st st' : FormState n)
    (h : runFORM P seedX seedU st = Except.ok st') :
    ∃ ls : LoopState n, ls.k ≤ P.nIter ∧ st' = finalize P st ls := by
  rw [runFORM] at h
  cases hseed : seedSelect P seedX seedU with
  | error e => rw [hseed, exbind_err] at h; exact absurd h (by simp)
  | ok seed =>
      rw [hseed, exbind_ok] at h
      cases hloop : runLoop P seedX seed (P.nIter + 2) (initLoopState P seed) with
      | error e => rw [hloop, exbind_err] at h; exact absurd h (by simp)
      | ok ls =>
          rw [hloop, exbind_ok] at h
          have := runLoop_ok P seedX seed (P.nIter + 2) (initLoopState P seed) ls
            (initLoopState_lenOk P seed) (by simp [initLoopState])
            (by simp [initLoopState]) hloop
          cases h
          exact ⟨ls, this.2, rfl⟩

theorem PhiInv_getD {n : ℕ} (P : FormParams n) (st : FormState n)
    (h : PhiInv P st) :
    st.failure_probability.getD [] = (st.beta_form.getD []).map fun b => P.Phi (-b) := by
  unfold PhiInv at h
  rcases hbf : st.beta_form with _ | bs <;>
    rcases hfp : st.failure_probability with _ | ps <;>
    rw [hbf, hfp] at h <;> simp_all

theorem npGet_ne_valueError {α : Type} (l : List α) (i : ℕ) :
    npGet l i ≠ Except.error PyErr.valueError := by
  unfold npGet; cases l[i]? <;> simp

theorem npSet_ne_valueError {α : Type} (l : List α) (i : ℕ) (a : α) :
    npSet l i a ≠ Except.error PyErr.valueError := by
  unfold npSet; split <;> simp

theorem exbind_ne_valueError {α β : Type} (x : Except PyErr α)
    (f : α → Except PyErr β) (hx : x ≠ Except.error PyErr.valueError)
    (hf : ∀ a, f a ≠ Except.error PyErr.valueError) :
    (x >>= f) ≠ Except.error PyErr.valueError := by
  cases x with
  | error e =>
      rw [exbind_err]
      intro hcon
      injection hcon with he
      exact hx (by rw [he])
  | ok a => rw [exbind_ok]; exact hf a

theorem formIteration_ne_valueError {n : ℕ} (P : FormParams n)
    (seedX : Option (Fin n → ℝ)) (seed : Fin n → ℝ) (ls : LoopState n) :
    formIteration P seedX seed ls ≠ Except.error PyErr.valueError := by
  simp only [formIteration.eq_def]
  refine exbind_ne_valueError _ _ (npGet_ne_valueError _ _) fun uk => ?_
  refine exbind_ne_valueError _ _ (npSet_ne_valueError _ _ _) fun dgRec' => ?_
  refine exbind_ne_valueError _ _ (npSet_ne_valueError _ _ _) fun beta' => ?_
  refine exbind_ne_valueError _ _ (npSet_ne_valueError _ _ _) fun beta'' => ?_
  refine exbind_ne_valueError _ _ (npSet_ne_valueError _ _ _) fun u' => ?_
  refine exbind_ne_valueError _ _ (npGet_ne_valueError _ _) fun dgk => ?_
  simp

theorem runLoop_ne_valueError {n : ℕ} (P : FormParams n)
    (seedX : Option (Fin n → ℝ)) (seed : Fin n → ℝ) (fuel : ℕ) :
    ∀ ls : LoopState n, runLoop P seedX seed fuel ls ≠ Except.error PyErr.valueError := by
  induction fuel with
  | zero => intro ls; simp [runLoop]
  | succ fuel ih =>
      intro ls
      rw [runLoop]
      split
      · simp
      · refine exbind_ne_valueError _ _
          (formIteration_ne_valueError P seedX seed ls) fun ls' => ?_
        split
        · simp
        · exact ih ls'

theorem runFORM_no_seedX_ne_valueError {n : ℕ} (P : FormParams n)
    (seedU : Option (Fin n → ℝ)) (st : FormState n) :
    runFORM P none seedU st ≠ Except.error PyErr.valueError := by
  rw [runFORM]
  refine exbind_ne_valueError _ _ ?_ fun seed => ?_
  · cases seedU <;> simp [seedSelect]
  · refine exbind_ne_valueError _ _ (runLoop_ne_valueError P none seed _ _) fun ls => ?_
    simp

/-- Claim C1: every completed (non-raising) call to `FORM.run` appends exactly
one new entry to each of the ten result/history lists (`beta_form`,
`DesignPoint_U`, `DesignPoint_X`, `failure_probability`, `form_iterations`,
`u_record`, `x_record`, `g_record`, `dg_u_record`, `alpha_record`) rather than
overwriting the previous state; in particular two completed calls leave
`len(beta_form) = 2` (see the witness). -/
theorem form_run_appends_each_history_list {n : ℕ} (P : FormParams n)
    (seedX seedU : Option (Fin n → ℝ)) (st st' : FormState n)
    (hwf : Wf st) (h : runFORM P seedX seedU st = Except.ok st') :
    olen st'.beta_form = olen st.beta_form + 1 ∧
    olen st'.DesignPoint_U = olen st.DesignPoint_U + 1 ∧
    olen st'.DesignPoint_X = olen st.DesignPoint_X + 1 ∧
    olen st'.failure_probability = olen st.failure_probability + 1 ∧
    olen st'.form_iterations = olen st.form_iterations + 1 ∧
    olen st'.u_record = olen st.u_record + 1 ∧
    olen st'.x_record = olen st.x_record + 1 ∧
    olen st'.g_record = olen st.g_record + 1 ∧
    olen st'.dg_u_record = olen st.dg_u_record + 1 ∧
    olen st'.alpha_record = olen st.alpha_record + 1 := by
  obtain ⟨ls, hk, rfl⟩ := runFORM_ok_elim P seedX seedU st st' h
  have hnk : ¬ ls.k > P.nIter := by omega
  by_cases hcall : st.call = false
  · obtain ⟨e1, e2, e3, e4, e5, e6, e7, e8, e9, e10⟩ := hwf hcall
    simp [finalize, hnk, hcall, olen, e1, e2, e3, e4, e5, e6, e7, e8, e9, e10]
  · simp [finalize, hnk, hcall, olen]

/-- Claim C3: calling `FORM.run` with both `seed_x` and `seed_u` raises
`ValueError` through the check on source line 121, before the loop starts:
the error result carries no updated state, so no model evaluation happens and
the instance attributes keep their previous values. -/
theorem form_run_dual_seed_raises_valueError {n : ℕ} (P : FormParams n)
    (sx su : Fin n → ℝ) (st : FormState n) :
    runFORM P (some sx) (some su) st = Except.error PyErr.valueError := rfl

/-- Claim C8: the invariant `failure_probability[i] = Phi(-beta_form[i])`
(for every accumulated run `i`, with both attributes of equal length) is
preserved by every completed call to `FORM.run`. -/
theorem form_failure_probability_phi_invariant {n : ℕ} (P : FormParams n)
    (seedX seedU : Option (Fin n → ℝ)) (st st' : FormState n)
    (hinv : PhiInv P st) (h : runFORM P seedX seedU st = Except.ok st') :
    PhiInv P st' := by
  obtain ⟨ls, hk, rfl⟩ := runFORM_ok_elim P seedX seedU st st' h
  have hnk : ¬ ls.k > P.nIter := by omega
  by_cases hcall : st.call = false
  · simp [finalize, hnk, hcall, PhiInv]
  · have hg := PhiInv_getD P st hinv
    simp [finalize, hnk, hcall, PhiInv, List.map_append, hg]

/-- Claim C10: constructing `FORM` with both `seed_x` and `seed_u` does not
raise a configuration error: `__init__` (line 96) checks `seed_u` first and
invokes `run(seed_u=seed_u)`, so `seed_x` is silently ignored for that
initial run and the `ValueError` branch of `run` is never reached. -/
theorem form_init_dual_seed_no_error {n : ℕ} (P : FormParams n)
    (sx su : Fin n → ℝ) :
    initFORM P (some sx) (some su) = runFORM P none (some su) (initState n) ∧
    initFORM P (some sx) (some su) ≠ Except.error PyErr.valueError := by
  refine ⟨rfl, ?_⟩
  have h : initFORM P (some sx) (some su) = runFORM P none (some su) (initState n) := rfl
  rw [h]
  exact runFORM_no_seedX_ne_valueError P (some su) (initState n)

/-- Claim C4 (code bug): with `tol1 = 1` and `tol2 = 10` configured and
`tol3 = None`, an iteration whose step-size error is `1/2` (within `tol1`)
and whose reliability-index error is `5` (within `tol2` but not within
`tol1`) is NOT declared converged: source line 232 compares `error2` against
`self.tol1` instead of `self.tol2`, while the claim (and the spec) require
each active criterion to be checked against its own tolerance, under which
this iteration would converge. -/
theorem form_tol12_beta_error_checked_against_tol1 :
    convergenceStep (n := 1) (some 1) (some 10) none
      (fun _ => 0) (fun _ => 1/2) 0 5 (fun _ => 0) (fun _ => 0) 0 [] =
      (false, 1, [[1/2, 5]]) ∧
    (euclideanNorm (fun _ : Fin 1 => (1/2 : ℝ) - 0) ≤ 1 ∧ |(5 : ℝ) - 0| ≤ 10) := by
  constructor
  · dsimp only [convergenceStep]
    split_ifs with h
    · exfalso
      rcases h with ⟨h1, h2⟩
      norm_num at h2
    · norm_num [euclideanNorm_single]
  · constructor
    · rw [euclideanNorm_single, sub_zero, abs_of_nonneg (by norm_num)]; norm_num
    · norm_num

/-- Claim C5 counterexample: with no tolerance configured, an iteration whose
gradient-change error is exactly `1e-3` (and whose other errors are `1`) is
NOT declared converged by the code, although the claim ("at least one error
within the default threshold `1e-3`") says it is: source line 199 uses the
strict comparison `error3 < 1e-3` for the gradient criterion. -/
theorem form_default_tolerance_boundary_cex :
    (convergenceStep (n := 1) none none none
      (fun _ => 0) (fun _ => 1) 0 1 (fun _ => 0) (fun _ => 1e-3) 0 []).1 = false ∧
    (euclideanNorm (fun _ : Fin 1 => (1 : ℝ) - 0) ≤ 1e-3 ∨
     |(1 : ℝ) - 0| ≤ 1e-3 ∨
     euclideanNorm (fun _ : Fin 1 => (1e-3 : ℝ) - 0) ≤ 1e-3) := by
  constructor
  · dsimp only [convergenceStep]
    split_ifs with h
    · exfalso
      rcases h with h1 | h2 | h3
      · rw [euclideanNorm_single] at h1; norm_num at h1
      · norm_num at h2
      · rw [euclideanNorm_single, sub_zero, abs_of_nonneg (by norm_num)] at h3
        norm_num at h3
    · rfl
  · right; right
    rw [euclideanNorm_single, sub_zero, abs_of_nonneg (by norm_num)]

/-- Claim C5 as amended: with no tolerance configured, an iteration converges
iff the step-size error is `≤ 1e-3`, or the reliability-index error is
`≤ 1e-3`, or the gradient-change error is STRICTLY `< 1e-3` (OR policy,
source line 199); with all three tolerances configured, it converges iff the
step-size error is `≤ tol1`, the reliability-index error is `≤ tol2` and the
gradient-change error is STRICTLY `< tol3` (AND policy, source line 189). -/
theorem form_convergence_or_and_policies {n : ℕ} (uk uk1 : Fin n → ℝ)
    (bk bk1 : ℝ) (dgk dgk1 : Fin n → ℝ) (k : ℕ) (er : List (List ℝ))
    (t1 t2 t3 : ℝ) :
    ((convergenceStep none none none uk uk1 bk bk1 dgk dgk1 k er).1 = true ↔
      (euclideanNorm (fun i => uk1 i - uk i) ≤ 1e-3 ∨ |bk1 - bk| ≤ 1e-3 ∨
        euclideanNorm (fun i => dgk1 i - dgk i) < 1e-3)) ∧
    ((convergenceStep (some t1) (some t2) (some t3) uk uk1 bk bk1 dgk dgk1 k er).1 = true ↔
      (euclideanNorm (fun i => uk1 i - uk i) ≤ t1 ∧ |bk1 - bk| ≤ t2 ∧
        euclideanNorm (fun i => dgk1 i - dgk i) < t3)) := by
  constructor <;> (dsimp only [convergenceStep]; split_ifs with h <;> simp [h])

/-- Claim C6 as amended: at every in-bounds iteration the direction-cosine
vector appended to `alpha_record` is `∇g / ‖∇g‖`, the gradient in U-space
divided by its Euclidean norm WITHOUT the negation stated in the claim
(source line 170: `alpha = dg_u / norm_grad`). -/
theorem form_alpha_is_normalized_gradient {n : ℕ} (P : FormParams n)
    (seedX : Option (Fin n → ℝ)) (seed : Fin n → ℝ) (ls : LoopState n)
    (hb : ls.beta.length = P.nIter + 1) (hu : ls.u.length = P.nIter + 1)
    (hd : ls.dgRec.length = P.nIter + 1) (hk : ls.k < P.nIter) :
    (formIteration P seedX seed ls).map LoopState.alphaRecord =
      Except.ok (ls.alphaRecord ++
        [fun i => dgOf P seedX seed ls i / euclideanNorm (dgOf P seedX seed ls)]) := by
  rw [formIteration_eq P seedX seed ls hb hu hd hk]
  rfl

/-- Claim C7: at every in-bounds iteration the update equations are exactly
`beta[k] = -(u_k · alpha_k)`, `beta[k+1] = beta[k] + g(x_k) / ‖∇g‖` and
`u[k+1] = -beta[k+1] * alpha_k` (source lines 177-182). -/
theorem form_update_equations {n : ℕ} (P : FormParams n)
    (seedX : Option (Fin n → ℝ)) (seed : Fin n → ℝ) (ls : LoopState n)
    (hb : ls.beta.length = P.nIter + 1) (hu : ls.u.length = P.nIter + 1)
    (hd : ls.dgRec.length = P.nIter + 1) (hk : ls.k < P.nIter) :
    (formIteration P seedX seed ls).map
        (fun ls' => (ls'.beta.getD ls.k 0, ls'.beta.getD (ls.k + 1) 0,
          ls'.u.getD (ls.k + 1) (fun _ => 0))) =
      Except.ok
        (-(∑ i, ukOf ls i * alphaOf P seedX seed ls i),
          -(∑ i, ukOf ls i * alphaOf P seedX seed ls i) +
            qoiOf P seedX seed ls / euclideanNorm (dgOf P seedX seed ls),
          fun i => -betaK1Of P seedX seed ls * alphaOf P seedX seed ls i) := by
  rw [formIteration_eq P seedX seed ls hb hu hd hk]
  simp only [Except.map]
  dsimp only [bodyResult]
  rw [getD_set_ne _ (ls.k + 1) ls.k _ _ (by omega)]
  rw [getD_set_self _ ls.k _ _ (by omega)]
  rw [getD_set_self _ (ls.k + 1) _ _ (by rw [List.length_set]; omega)]
  rw [getD_set_self _ (ls.k + 1) _ _ (by omega)]
  rfl

/-- Claim C9: the division `alpha = dg_u / norm(dg_u)` is unguarded: at an
in-bounds iteration whose U-space gradient has Euclidean norm zero, the body
takes no dedicated error branch (the result is `Except.ok`, not an error),
and the value appended to `alpha_record` is still the pointwise division of
the gradient by its (zero) norm. -/
theorem form_zero_gradient_unguarded {n : ℕ} (P : FormParams n)
    (seedX : Option (Fin n → ℝ)) (seed : Fin n → ℝ) (ls : LoopState n)
    (hb : ls.beta.length = P.nIter + 1) (hu : ls.u.length = P.nIter + 1)
    (hd : ls.dgRec.length = P.nIter + 1) (hk : ls.k < P.nIter)
    (hzero : euclideanNorm (dgOf P seedX seed ls) = 0) :
    euclideanNorm (dgOf P seedX seed ls) = 0 ∧
    (formIteration P seedX seed ls).map LoopState.alphaRecord =
      Except.ok (ls.alphaRecord ++
        [fun i => dgOf P seedX seed ls i / euclideanNorm (dgOf P seedX seed ls)]) := by
  refine ⟨hzero, ?_⟩
  rw [formIteration_eq P seedX seed ls hb hu hd hk]
  rfl

theorem runLoop_succ {n : ℕ} (P : FormParams n)
    (seedX : Option (Fin n → ℝ)) (seed : Fin n → ℝ) (fuel : ℕ)
    (ls : LoopState n) :
    runLoop P seedX seed (fuel + 1) ls =
      if ls.converged then Except.ok ls
      else
        (formIteration P seedX seed ls) >>= fun ls' =>
          if ls'.converged || decide (ls'.k > P.nIter) then Except.ok ls'
          else runLoop P seedX seed fuel ls' := by
  rw [runLoop]

/-- Concrete one-dimensional instance used by witnesses: identity transforms,
`derivatives` returning gradient `[1]` and performance value `0`, identity in
place of the external normal CDF, no tolerances (default OR policy),
`iterations_number = 1`.  The first pass converges immediately
(`‖u_1 - u_0‖ = 0 ≤ 1e-3`). -/
def paramsA : FormParams 1 :=
  { nIter := 1, transform := fun u => u, toU := fun x => x,
    deriv := fun _ _ => (fun _ => 1, 0), Phi := fun t => t,
    tol1 := none, tol2 := none, tol3 := none }

/-- The loop state after the single (converging) pass of `paramsA` from the
zero seed. -/
noncomputable def lsA : LoopState 1 :=
  bodyResult paramsA none (fun _ => 0) (initLoopState paramsA (fun _ => 0))

theorem bodyA :
    formIteration paramsA none (fun _ => 0) (initLoopState paramsA (fun _ => 0)) =
      Except.ok lsA :=
  formIteration_eq paramsA none (fun _ => 0) (initLoopState paramsA (fun _ => 0))
    (by simp [initLoopState, paramsA]) (by simp [initLoopState, paramsA])
    (by simp [initLoopState, paramsA]) (by simp [initLoopState, paramsA])

theorem lsA_flags : lsA.converged = true ∧ lsA.k = 0 := by
  constructor <;>
  · dsimp only [lsA, bodyResult, paramsA, convergenceStep]
    split_ifs with h
    · rfl
    · exfalso
      apply h
      right; left
      norm_num [betaK1Of, qoiOf, paramsA]

theorem runA (st : FormState 1) :
    runFORM paramsA none none st = Except.ok (finalize paramsA st lsA) := by
  rw [runFORM]
  rw [show seedSelect paramsA none none = Except.ok (fun _ => (0 : ℝ)) from rfl,
    exbind_ok]
  rw [show paramsA.nIter + 2 = 2 + 1 from rfl, runLoop_succ]
  rw [if_neg (by simp [initLoopState])]
  rw [bodyA, exbind_ok]
  rw [if_pos (by simp [lsA_flags.1])]
  rw [exbind_ok]

theorem alphaA :
    alphaOf paramsA none (fun _ => 0) (initLoopState paramsA (fun _ => 0)) =
      fun _ => 1 := by
  funext i
  norm_num [alphaOf, dgOf, ukOf, xOf, paramsA, initLoopState, euclideanNorm_single]

/-- Witness for claim C1 at a concrete converging instance: the first run
takes the ten lists from length 0 to length 1, the second from 1 to 2; in
particular `len(beta_form) = 2` after two calls. -/
theorem form_run_appends_each_history_list_witness :
    Wf (initState 1) ∧
    runFORM paramsA none none (initState 1) =
      Except.ok (finalize paramsA (initState 1) lsA) ∧
    Wf (finalize paramsA (initState 1) lsA) ∧
    runFORM paramsA none none (finalize paramsA (initState 1) lsA) =
      Except.ok (finalize paramsA (finalize paramsA (initState 1) lsA) lsA) ∧
    olen (finalize paramsA (initState 1) lsA).beta_form = 1 ∧
    olen (finalize paramsA (finalize paramsA (initState 1) lsA) lsA).beta_form = 2 := by
  have hwf0 : Wf (initState 1) := by intro h; simp [initState]
  have h1 := runA (initState 1)
  have hk0 : ¬ lsA.k > paramsA.nIter := by rw [lsA_flags.2]; simp [paramsA]
  have hwf1 : Wf (finalize paramsA (initState 1) lsA) := by
    intro hc
    exfalso
    simp [finalize, hk0, initState] at hc
  have h2 := runA (finalize paramsA (initState 1) lsA)
  have happ1 := form_run_appends_each_history_list paramsA none none _ _ hwf0 h1
  have happ2 := form_run_appends_each_history_list paramsA none none _ _ hwf1 h2
  refine ⟨hwf0, h1, hwf1, h2, ?_, ?_⟩
  · rw [happ1.1]; rfl
  · rw [happ2.1, happ1.1]; rfl

/-- Witness for claim C8 at a concrete converging instance: the invariant
holds in the fresh state and still holds after a completed run. -/
theorem form_failure_probability_phi_invariant_witness :
    PhiInv paramsA (initState 1) ∧
    runFORM paramsA none none (initState 1) =
      Except.ok (finalize paramsA (initState 1) lsA) ∧
    PhiInv paramsA (finalize paramsA (initState 1) lsA) := by
  have hinv : PhiInv paramsA (initState 1) := by unfold PhiInv; simp [initState]
  have h1 := runA (initState 1)
  exact ⟨hinv, h1,
    form_failure_probability_phi_invariant paramsA none none _ _ hinv h1⟩

/-- Claim C6 counterexample: at the first iteration of a concrete instance
the U-space gradient is the constant vector `[1]`, the recorded direction
cosine is `[+1] = ∇g / ‖∇g‖`, while the claim's formula `-∇g / ‖∇g‖` gives
`-1 ≠ 1` there. -/
theorem form_alpha_not_negated_cex :
    dgOf paramsA none (fun _ => 0) (initLoopState paramsA (fun _ => 0)) =
      (fun _ => 1) ∧
    (formIteration paramsA none (fun _ => 0)
        (initLoopState paramsA (fun _ => 0))).map LoopState.alphaRecord =
      Except.ok [fun _ => (1 : ℝ)] ∧
    -(dgOf paramsA none (fun _ => 0) (initLoopState paramsA (fun _ => 0)) 0) /
      euclideanNorm (dgOf paramsA none (fun _ => 0)
        (initLoopState paramsA (fun _ => 0))) = -1 ∧
    (1 : ℝ) ≠ -1 := by
  refine ⟨rfl, ?_, ?_, by norm_num⟩
  · rw [bodyA]
    dsimp only [Except.map, lsA, bodyResult]
    rw [alphaA]
    rfl
  · rw [show dgOf paramsA none (fun _ => (0 : ℝ))
        (initLoopState paramsA (fun _ => 0)) = fun _ => 1 from rfl]
    rw [euclideanNorm_single]
    norm_num

/-- Witness for claim C6 as amended, at a concrete instance. -/
theorem form_alpha_is_normalized_gradient_witness :
    (initLoopState paramsA (fun _ => 0)).k < paramsA.nIter ∧
    (formIteration paramsA none (fun _ => 0)
        (initLoopState paramsA (fun _ => 0))).map LoopState.alphaRecord =
      Except.ok ((initLoopState paramsA (fun _ => 0)).alphaRecord ++
        [fun i => dgOf paramsA none (fun _ => 0)
            (initLoopState paramsA (fun _ => 0)) i /
          euclideanNorm (dgOf paramsA none (fun _ => 0)
            (initLoopState paramsA (fun _ => 0)))]) := by
  refine ⟨by simp [initLoopState, paramsA], ?_⟩
  exact form_alpha_is_normalized_gradient paramsA none (fun _ => 0)
    (initLoopState paramsA (fun _ => 0))
    (by simp [initLoopState, paramsA]) (by simp [initLoopState, paramsA])
    (by simp [initLoopState, paramsA]) (by simp [initLoopState, paramsA])

/-- Witness for claim C7, at a concrete instance. -/
theorem form_update_equations_witness :
    (initLoopState paramsA (fun _ => 0)).k < paramsA.nIter ∧
    (formIteration paramsA none (fun _ => 0)
        (initLoopState paramsA (fun _ => 0))).map
        (fun ls' => (ls'.beta.getD (initLoopState paramsA (fun _ => 0)).k 0,
          ls'.beta.getD ((initLoopState paramsA (fun _ => 0)).k + 1) 0,
          ls'.u.getD ((initLoopState paramsA (fun _ => 0)).k + 1) (fun _ => 0))) =
      Except.ok
        (-(∑ i, ukOf (initLoopState paramsA (fun _ => 0)) i *
            alphaOf paramsA none (fun _ => 0) (initLoopState paramsA (fun _ => 0)) i),
          -(∑ i, ukOf (initLoopState paramsA (fun _ => 0)) i *
            alphaOf paramsA none (fun _ => 0) (initLoopState paramsA (fun _ => 0)) i) +
            qoiOf paramsA none (fun _ => 0) (initLoopState paramsA (fun _ => 0)) /
              euclideanNorm (dgOf paramsA none (fun _ => 0)
                (initLoopState paramsA (fun _ => 0))),
          fun i => -betaK1Of paramsA none (fun _ => 0)
              (initLoopState paramsA (fun _ => 0)) *
            alphaOf paramsA none (fun _ => 0)
              (initLoopState paramsA (fun _ => 0)) i) := by
  refine ⟨by simp [initLoopState, paramsA], ?_⟩
  exact form_update_equations paramsA none (fun _ => 0)
    (initLoopState paramsA (fun _ => 0))
    (by simp [initLoopState, paramsA]) (by simp [initLoopState, paramsA])
    (by simp [initLoopState, paramsA]) (by simp [initLoopState, paramsA])

/-- Concrete instance whose model evaluator has an identically zero gradient
in U-space. -/
def paramsZ : FormParams 1 :=
  { nIter := 1, transform := fun u => u, toU := fun x => x,
    deriv := fun _ _ => (fun _ => 0, 1), Phi := fun t => t,
    tol1 := none, tol2 := none, tol3 := none }

/-- Witness for claim C9: at a concrete first iteration whose gradient is the
zero vector, the loop body returns `Except.ok` (no raise) and records
`alpha = ∇g / ‖∇g‖` with `‖∇g‖ = 0`. -/
theorem form_zero_gradient_unguarded_witness :
    euclideanNorm (dgOf paramsZ none (fun _ => 0)
      (initLoopState paramsZ (fun _ => 0))) = 0 ∧
    (formIteration paramsZ none (fun _ => 0)
        (initLoopState paramsZ (fun _ => 0))).map LoopState.alphaRecord =
      Except.ok ((initLoopState paramsZ (fun _ => 0)).alphaRecord ++
        [fun i => dgOf paramsZ none (fun _ => 0)
            (initLoopState paramsZ (fun _ => 0)) i /
          euclideanNorm (dgOf paramsZ none (fun _ => 0)
            (initLoopState paramsZ (fun _ => 0)))]) := by
  have hzero : euclideanNorm (dgOf paramsZ none (fun _ => (0 : ℝ))
      (initLoopState paramsZ (fun _ => 0))) = 0 := by
    rw [show dgOf paramsZ none (fun _ => (0 : ℝ))
        (initLoopState paramsZ (fun _ => 0)) = fun _ => 0 from rfl]
    rw [euclideanNorm_single]
    norm_num
  exact form_zero_gradient_unguarded paramsZ none (fun _ => 0)
    (initLoopState paramsZ (fun _ => 0))
    (by simp [initLoopState, paramsZ]) (by simp [initLoopState, paramsZ])
    (by simp [initLoopState, paramsZ]) (by simp [initLoopState, paramsZ]) hzero

/-- Concrete instance that can never converge: `tol1 = -1` while every
step-size error is a nonnegative norm, with `iterations_number = 1`. -/
def paramsB : FormParams 1 :=
  { nIter := 1, transform := fun u => u, toU := fun x => x,
    deriv := fun _ _ => (fun _ => 1, 1), Phi := fun t => t,
    tol1 := some (-1), tol2 := none, tol3 := none }

/-- The loop state after the first (non-converging) pass of `paramsB`. -/
noncomputable def lsB1 : LoopState 1 :=
  bodyResult paramsB none (fun _ => 0) (initLoopState paramsB (fun _ => 0))

theorem bodyB0 :
    formIteration paramsB none (fun _ => 0) (initLoopState paramsB (fun _ => 0)) =
      Except.ok lsB1 :=
  formIteration_eq paramsB none (fun _ => 0) (initLoopState paramsB (fun _ => 0))
    (by simp [initLoopState, paramsB]) (by simp [initLoopState, paramsB])
    (by simp [initLoopState, paramsB]) (by simp [initLoopState, paramsB])

theorem lsB1_flags : lsB1.converged = false ∧ lsB1.k = 1 := by
  constructor <;>
  · dsimp only [lsB1, bodyResult, paramsB, convergenceStep]
    split_ifs with h
    · exfalso
      exact absurd (le_trans (euclideanNorm_nonneg _) h) (by norm_num)
    · rfl

theorem lsB1_dgRec_len : lsB1.dgRec.length = 2 := by
  dsimp only [lsB1, bodyResult]
  simp [initLoopState, paramsB]

/-- Claim C2 (code bug): on a concrete instance that never satisfies its
tolerance, `FORM.run` raises `IndexError` instead of reporting a
non-converged result: the pass at `k = n_iter` writes
`dg_u_record[n_iter + 1]` into an array with `n_iter + 1` rows (source line
168), so the `k > n_iter` branch of lines 260-268 is unreachable, no partial
history is stored, and `form_iterations` (which even that branch never
assigns) is not set to the configured maximum. -/
theorem form_nonconvergence_raises_indexError :
    runFORM paramsB none none (initState 1) = Except.error PyErr.indexError := by
  have hb1 : formIteration paramsB none (fun _ => 0) lsB1 =
      Except.error PyErr.indexError :=
    formIteration_err paramsB none (fun _ => 0) lsB1 lsB1_dgRec_len
      (by rw [lsB1_flags.2]; simp [paramsB])
  rw [runFORM]
  rw [show seedSelect paramsB none none = Except.ok (fun _ => (0 : ℝ)) from rfl,
    exbind_ok]
  rw [show paramsB.nIter + 2 = 2 + 1 from rfl, runLoop_succ]
  rw [if_neg (by simp [initLoopState])]
  rw [bodyB0, exbind_ok]
  rw [if_neg (by simp [lsB1_flags.1, lsB1_flags.2, paramsB])]
  rw [show (2 : ℕ) = 1 + 1 from rfl, runLoop_succ]
  rw [if_neg (by simp [lsB1_flags.1])]
  rw [hb1, exbind_err, exbind_err]
